import Mathlib

/-!
Verification of the its-dashboard-api-services repository against its
natural-language specification.

The development shallowly embeds the service-layer business logic of the
Auth Service (`app/services/auth_service.py`, `app/services/role_service.py`,
`app/models/user.py`, `app/dependencies/auth.py`) and the ANPR Service
(`app/services/event_service.py`, `app/services/camera_service.py`,
`app/schemas/event.py`) together with the shared middleware and audit
emitter (`services/shared/middleware/request_logging.py`,
`services/shared/audit/__init__.py`).

Conventions used throughout:
- Database state is a record of lists of rows; every service operation is a
  pure function returning the new database state together with an
  `Except code result` mirroring the code's raise-or-return behaviour
  (an `HTTPException(status_code=c)` is `.error c`; an aborted transaction
  returns the input state unchanged, since nothing was committed).
- Timestamps are modelled as natural numbers counting minutes, so
  `timedelta(minutes=30)` is `+ 30` and `timedelta(days=7)` is `+ 7*24*60`.
- Python truthiness on an optional string (`if value:`) is modelled by
  `optTruthy` (present and non-empty).
- The password-hashing / JWT module `app/utils/security.py` is not part of
  the source tree (only its call sites are); following §4.7 of the
  specification it is taken as abstract function parameters
  (`credOk`, `decode`, `mkAccess`).
-/

namespace Its

/-- Python truthiness of an optional string: `if value:` is true exactly when
the value is present and non-empty. -/
def optTruthy : Option String → Bool
  | none => false
  | some s => s ≠ ""

/-! ## Auth domain: data model

Embedding of `app/models/user.py` (the columns touched by the
authentication flows) and `app/models/refresh_token.py`. -/

/-- Row of the `users` table (the columns read or written by
`AuthService`). -/
structure AuthUser where
  id : Nat
  email : String
  username : String
  is_active : Bool
  is_verified : Bool
  is_superuser : Bool
  failed_login_attempts : Nat
  locked_until : Option Nat
  last_login : Option Nat
  deriving Repr, DecidableEq

/-- Row of the `refresh_tokens` table. -/
structure RefreshTokenRow where
  token : String
  user_id : Nat
  expires_at : Nat
  is_revoked : Bool
  revoked_at : Option Nat
  deriving Repr, DecidableEq

/-- The auth-service database state: the two tables the authentication
flows touch. -/
structure AuthDB where
  users : List AuthUser
  refresh_tokens : List RefreshTokenRow
  deriving Repr, DecidableEq

/-- RefreshToken.is_expired: `datetime.utcnow() >= self.expires_at`. -/
def RefreshTokenRow.isExpired (r : RefreshTokenRow) (now : Nat) : Bool :=
  now ≥ r.expires_at

/-- Token pair returned by login/refresh (`TokenResponse` schema). -/
structure TokenResponse where
  access_token : String
  refresh_token : String
  token_type : String
  expires_in : Nat
  deriving Repr, DecidableEq

/-- settings.ACCESS_TOKEN_EXPIRE_MINUTES (default 525600). -/
def ACCESS_TOKEN_EXPIRE_MINUTES : Nat := 525600

/-- settings.REFRESH_TOKEN_EXPIRE_DAYS (default 7), converted to the
minute-based clock. -/
def REFRESH_TOKEN_EXPIRE_DAYS_IN_MINUTES : Nat := 7 * 24 * 60

/-- Replace the user row with the given id (the ORM mutates the managed row
in place; the surrounding commit persists it). -/
def updateUserRow (users : List AuthUser) (uid : Nat) (u : AuthUser) : List AuthUser :=
  users.map fun v => if v.id = uid then u else v

/-! ## AuthService (app/services/auth_service.py) -/

/-- AuthService._handle_failed_login: increments
`failed_login_attempts`; once the counter reaches 5, sets
`locked_until = now + 30 minutes`. (The `user is None` early return is
handled at the caller, which always passes a found user.) -/
def handleFailedLogin (u : AuthUser) (now : Nat) : AuthUser :=
  let attempts := u.failed_login_attempts + 1
  let u2 := { u with failed_login_attempts := attempts }
  if attempts ≥ 5 then { u2 with locked_until := some (now + 30) } else u2

/-- AuthService.login. `credOk u` abstracts
`verify_password(login_data.password, user.hashed_password)` from the
absent security module; `accessTok` and `refreshTok` abstract the freshly
issued token strings. Error codes: 401 invalid credentials, 403
inactive/locked. The checks run in exactly the source order: password
mismatch, missing user, inactive, locked, then success. -/
def login (db : AuthDB) (username : String) (credOk : AuthUser → Bool)
    (now : Nat) (accessTok refreshTok : String) :
    AuthDB × Except Nat TokenResponse :=
  match db.users.find? (fun u => u.username = username) with
  | none => (db, .error 401)
  | some u =>
    if ¬ credOk u then
      let u2 := handleFailedLogin u now
      ({ db with users := updateUserRow db.users u.id u2 }, .error 401)
    else if ¬ u.is_active then
      (db, .error 403)
    else
      match u.locked_until with
      | some t =>
        if t > now then (db, .error 403)
        else loginSuccess db u now accessTok refreshTok
      | none => loginSuccess db u now accessTok refreshTok
where
  /-- Success tail of `AuthService.login`: reset the failure counter, clear
  the lock, stamp `last_login`, store the new refresh-token row and return
  the token pair. -/
  loginSuccess (db : AuthDB) (u : AuthUser) (now : Nat)
      (accessTok refreshTok : String) : AuthDB × Except Nat TokenResponse :=
    let u2 := { u with failed_login_attempts := 0, locked_until := none,
                       last_login := some now }
    let row : RefreshTokenRow :=
      { token := refreshTok, user_id := u.id,
        expires_at := now + REFRESH_TOKEN_EXPIRE_DAYS_IN_MINUTES,
        is_revoked := false, revoked_at := none }
    ({ users := updateUserRow db.users u.id u2,
       refresh_tokens := db.refresh_tokens ++ [row] },
     .ok { access_token := accessTok, refresh_token := refreshTok,
           token_type := "bearer",
           expires_in := ACCESS_TOKEN_EXPIRE_MINUTES * 60 })

/-- Registration payload (`UserRegister` schema: the fields
`AuthService.register_user` copies onto the new row). -/
structure UserRegister where
  email : String
  username : String
  deriving Repr, DecidableEq

/-- AuthService.register_user: rejects with 400 when the email or the
username is already taken (in that order); otherwise inserts a new row with
`is_active=True`, `is_verified=False`, `is_superuser=False`.  `nextId`
stands for the database-assigned autoincrement key; `now` feeds
`password_changed_at` (not tracked in `AuthUser`, which keeps only the
columns the verified claims mention). -/
def registerUser (db : AuthDB) (p : UserRegister) (nextId : Nat) :
    AuthDB × Except Nat AuthUser :=
  if db.users.any (fun u => u.email = p.email) then
    (db, .error 400)
  else if db.users.any (fun u => u.username = p.username) then
    (db, .error 400)
  else
    let u : AuthUser :=
      { id := nextId, email := p.email, username := p.username,
        is_active := true, is_verified := false, is_superuser := false,
        failed_login_attempts := 0, locked_until := none, last_login := none }
    ({ db with users := db.users ++ [u] }, .ok u)

/-- Python `int(...)` on a decimal-digit string (the shape every token
subject produced by this code base has): the value of the digits, absent
when the string is empty or holds a non-digit. -/
def pyInt? (s : String) : Option Nat :=
  if s.data ≠ [] ∧ s.data.all (fun c => c.isDigit) then
    some (s.data.foldl (fun n c => n * 10 + (c.toNat - 48)) 0)
  else none

/-- Decoded JWT claim map, restricted to the claims
`refresh_access_token` reads (`payload.get("sub")`,
`payload.get("type")`). -/
structure TokenPayload where
  sub : Option String
  ptype : Option String
  deriving Repr, DecidableEq

/-- AuthService.refresh_access_token. `decode` abstracts
`decode_token` from the absent security module (absent value on any
validation failure, per §4.7); `mkAccess` abstracts
`create_access_token({"sub": str(user.id)})`.  The function never writes:
every branch returns the input database unchanged.  `int(user_id)` on a
non-numeric subject would raise out of the handler; that branch is modelled
as error 500. -/
def refreshAccessToken (decode : String → Option TokenPayload)
    (mkAccess : String → String) (db : AuthDB) (tok : String) (now : Nat) :
    AuthDB × Except Nat TokenResponse :=
  match decode tok with
  | none => (db, .error 401)
  | some p =>
    if p.ptype ≠ some "refresh" then (db, .error 401)
    else if ¬ optTruthy p.sub then (db, .error 401)
    else
      match pyInt? (p.sub.getD "") with
      | none => (db, .error 500)
      | some uid =>
        match db.refresh_tokens.find?
            (fun r => r.token = tok ∧ r.user_id = uid ∧ r.is_revoked = false) with
        | none => (db, .error 401)
        | some row =>
          if row.isExpired now then (db, .error 401)
          else
            match db.users.find? (fun u => u.id = uid) with
            | none => (db, .error 401)
            | some u =>
              if ¬ u.is_active then (db, .error 401)
              else
                (db, .ok { access_token := mkAccess (toString u.id),
                           refresh_token := tok, token_type := "bearer",
                           expires_in := ACCESS_TOKEN_EXPIRE_MINUTES * 60 })

/-- AuthService.logout_all: revokes every currently non-revoked refresh
token owned by `uid`, returns `True` unconditionally, and reports the
number of rows revoked (the audited `revoked_tokens` count). -/
def logoutAll (db : AuthDB) (uid : Nat) (now : Nat) :
    AuthDB × Bool × Nat :=
  let hits := db.refresh_tokens.filter
    (fun r => r.user_id = uid ∧ r.is_revoked = false)
  let db2 := { db with refresh_tokens := db.refresh_tokens.map fun r =>
    if r.user_id = uid ∧ r.is_revoked = false then
      { r with is_revoked := true, revoked_at := some now }
    else r }
  (db2, true, hits.length)

/-! ## RoleManagementService (app/services/role_service.py) -/

/-- Row of `role_service_accesses` as seen from a role
(`RoleServiceAccess`: the per-link `access_level` and `is_active`). -/
structure ServiceAccessLink where
  service_id : Nat
  access_level : String
  is_active : Bool
  deriving Repr, DecidableEq

/-- Row of the `roles` table, carrying its permission links
(`role_permissions`, by permission id) and its service-access links. -/
structure RoleRow where
  id : Nat
  name : String
  description : Option String
  is_active : Bool
  is_system : Bool
  permission_ids : List Nat
  service_access : List ServiceAccessLink
  deriving Repr, DecidableEq

/-- Row of the `permissions` table (the columns the role service reads). -/
structure PermissionRow where
  id : Nat
  name : String
  resource : String
  action : String
  is_active : Bool
  deriving Repr, DecidableEq

/-- Row of the `services` table (the columns the role service reads). -/
structure ServiceRow where
  id : Nat
  name : String
  key : String
  is_active : Bool
  deriving Repr, DecidableEq

/-- Auth-service RBAC tables touched by `RoleManagementService`. -/
structure RoleDB where
  roles : List RoleRow
  permissions : List PermissionRow
  services : List ServiceRow
  deriving Repr, DecidableEq

/-- RoleUpdate payload schema (all fields optional). -/
structure RoleUpdatePayload where
  name : Option String
  description : Option String
  is_active : Option Bool
  permission_ids : Option (List Nat)
  service_access : Option (List ServiceAccessLink)
  deriving Repr, DecidableEq

/-- RoleManagementService._fetch_permissions_or_404: resolves the
requested ids against active permissions, raising 404 when any id is
missing or inactive; on success the role's permission set becomes exactly
the requested ids. -/
def fetchPermissionsOr404 (db : RoleDB) (ids : List Nat) : Except Nat (List Nat) :=
  if ids.all (fun i => db.permissions.any (fun q => q.id = i ∧ q.is_active)) then
    .ok ids
  else .error 404

/-- Inner loop of `RoleManagementService._apply_service_access`: for each
desired entry, require the target service to exist and be active (404
otherwise), then update the matching kept link in place or append a new
link. -/
def applySAItems (services : List ServiceRow) (kept : List ServiceAccessLink) :
    List ServiceAccessLink → Except Nat (List ServiceAccessLink)
  | [] => .ok kept
  | i :: rest =>
    if services.any (fun s => s.id = i.service_id ∧ s.is_active) then
      if kept.any (fun l => l.service_id = i.service_id) then
        applySAItems services
          (kept.map fun l =>
            if l.service_id = i.service_id then
              { l with access_level := i.access_level, is_active := i.is_active }
            else l)
          rest
      else
        applySAItems services (kept ++ [i]) rest
    else .error 404

/-- RoleManagementService._apply_service_access: drops existing links
whose service id is absent from the desired set, then reconciles each
desired entry via `applySAItems`. -/
def applyServiceAccess (services : List ServiceRow)
    (links : List ServiceAccessLink) (items : List ServiceAccessLink) :
    Except Nat (List ServiceAccessLink) :=
  let payloadIds := items.map (fun i => i.service_id)
  applySAItems services (links.filter fun l => payloadIds.contains l.service_id) items

/-- Field-application tail of `RoleManagementService.update_role` (after
the system-role gate): rename with 409 conflict check, partial
description/active updates, permission replacement, service-access
reconciliation. -/
def updateRoleCore (db : RoleDB) (role : RoleRow) (p : RoleUpdatePayload) :
    Except Nat RoleRow := do
  let r1 ←
    if optTruthy p.name ∧ p.name ≠ some role.name then
      if db.roles.any (fun q => some q.name = p.name ∧ q.id ≠ role.id) then
        Except.error 409
      else Except.ok { role with name := p.name.getD role.name }
    else Except.ok role
  let r2 := match p.description with
    | some d => { r1 with description := some d }
    | none => r1
  let r3 := match p.is_active with
    | some b => if b ≠ r2.is_active then { r2 with is_active := b } else r2
    | none => r2
  let r4 ←
    match p.permission_ids with
    | some ids =>
      match fetchPermissionsOr404 db ids with
      | .error e => Except.error e
      | .ok resolved => Except.ok { r3 with permission_ids := resolved }
    | none => Except.ok r3
  match p.service_access with
  | some items =>
    match applyServiceAccess db.services r4.service_access items with
    | .error e => Except.error e
    | .ok sa => Except.ok { r4 with service_access := sa }
  | none => Except.ok r4

/-- RoleManagementService.update_role: 404 when the role id does not
resolve; 400 when the role is a system role and the payload carries a
(truthy) new name or sets `is_active` to `False`; otherwise applies the
supplied fields and commits.  Every error path returns the input database
unchanged (the exception aborts before commit). -/
def updateRole (db : RoleDB) (rid : Nat) (p : RoleUpdatePayload) :
    RoleDB × Except Nat RoleRow :=
  match db.roles.find? (fun r => r.id = rid) with
  | none => (db, .error 404)
  | some role =>
    if role.is_system ∧ (optTruthy p.name ∨ p.is_active = some false) then
      (db, .error 400)
    else
      match updateRoleCore db role p with
      | .error e => (db, .error e)
      | .ok r2 =>
        ({ db with roles := db.roles.map fun q => if q.id = rid then r2 else q },
         .ok r2)

/-- RoleManagementService.delete_role: 404 when missing, 400 for system
roles (before any mutation), otherwise hard-deletes the row (the ORM
cascade also removes its links, which live inside the row here). -/
def deleteRole (db : RoleDB) (rid : Nat) : RoleDB × Except Nat Unit :=
  match db.roles.find? (fun r => r.id = rid) with
  | none => (db, .error 404)
  | some role =>
    if role.is_system then (db, .error 400)
    else ({ db with roles := db.roles.filter fun q => q.id ≠ rid }, .ok ())

/-! ## Authorization gates (app/models/user.py, app/dependencies/auth.py)

For the authorization claims a user is viewed with their resolved roles,
each role carrying its resolved permissions, exactly the object graph
`User.roles` / `Role.permissions` traversed by `has_role` /
`has_permission`. -/

/-- A permission as loaded on a role (`Permission` model). -/
structure PermObj where
  name : String
  resource : String
  action : String
  is_active : Bool
  deriving Repr, DecidableEq

/-- Permission.full_name: the derived `"resource:action"` string. -/
def PermObj.fullName (p : PermObj) : String := p.resource ++ ":" ++ p.action

/-- A role as loaded on a user (`Role` model with its permission list). -/
structure RoleObj where
  name : String
  is_active : Bool
  permissions : List PermObj
  deriving Repr, DecidableEq

/-- A user with the resolved role graph, as seen by the dependency gates. -/
structure UserObj where
  id : Nat
  is_active : Bool
  is_superuser : Bool
  locked_until : Option Nat
  roles : List RoleObj
  deriving Repr, DecidableEq

/-- User.has_role: `any(role.name == role_name for role in self.roles)` —
note no `is_active` filter on the role. -/
def UserObj.hasRole (u : UserObj) (roleName : String) : Bool :=
  u.roles.any fun r => r.name = roleName

/-- User.has_permission: scans every role's every permission and matches
on `full_name` or bare `name` — note no `is_active` filter on either the
role or the permission. -/
def UserObj.hasPermission (u : UserObj) (permissionName : String) : Bool :=
  u.roles.any fun r => r.permissions.any fun p =>
    p.fullName = permissionName ∨ p.name = permissionName

/-- get_current_active_user: 403 when inactive, 403 when
`locked_until` is set and still in the future, else passes the user
through. -/
def getCurrentActiveUser (u : UserObj) (now : Nat) : Except Nat UserObj :=
  if ¬ u.is_active then .error 403
  else
    match u.locked_until with
    | some t => if t > now then .error 403 else .ok u
    | none => .ok u

/-- require_permission(permission_name): the permission gate layered on
the active-user gate. -/
def requirePermission (permissionName : String) (u : UserObj) (now : Nat) :
    Except Nat UserObj := do
  let u2 ← getCurrentActiveUser u now
  if u2.hasPermission permissionName then .ok u2 else .error 403

/-- require_role(role_name): the role gate layered on the active-user
gate. -/
def requireRole (roleName : String) (u : UserObj) (now : Nat) :
    Except Nat UserObj := do
  let u2 ← getCurrentActiveUser u now
  if u2.hasRole roleName then .ok u2 else .error 403

/-! ## Boot-time parsing (app/services/camera_service.py)

`CameraService._parse_system_boot_time` tries
`datetime.strptime(value, fmt)` for the four fixed patterns
`%Y-%m-%dT%H:%M:%S%z`, `%Y-%m-%dT%H:%M:%S`, `%d/%m/%Y %H:%M:%S`,
`%m/%d/%Y %H:%M:%S` in order (a `ValueError` falls through to the next),
then `datetime.fromisoformat(value)`, and raises
`ValueError("Invalid systemBootTime format: ...")` when everything fails.

The four patterns are embedded directive-by-directive with the digit
grammar of the standard strptime implementation: `%Y` is exactly four
digits, `%d`/`%m`/`%H`/`%M`/`%S` take two digits when the two-digit value
is within the directive's range and otherwise one digit, a literal
whitespace matches a run of whitespace, literal letters match
case-insensitively, `%z` matches `Z` or a signed `HH[:]MM` offset with
optional seconds/fraction and must stay below 24 hours, the matched values
must form a real calendar date, and the whole input must be consumed. -/

/-- Wall-clock date-time produced by the boot-time parsers (`tz` is a UTC
offset in seconds when the input carried one). -/
structure PDateTime where
  year : Nat
  month : Nat
  day : Nat
  hour : Nat
  minute : Nat
  second : Nat
  tz : Option Int := none
  deriving Repr, DecidableEq

/-- Numeric value of a decimal digit character. -/
def digitVal (c : Char) : Nat := c.toNat - 48

/-- Consume exactly `n` decimal digits, accumulating their value. -/
def takeDigitsAux : Nat → Nat → List Char → Option (Nat × List Char)
  | 0, acc, cs => some (acc, cs)
  | n + 1, acc, c :: rest =>
    if c.isDigit then takeDigitsAux n (acc * 10 + digitVal c) rest else none
  | _ + 1, _, [] => none

/-- A two-digits-preferred numeric directive: take two digits when their
value satisfies `valid2`, else one digit when it satisfies `valid1`
(mirroring the alternation order of the strptime directive regexes). -/
def take2or1 (valid2 valid1 : Nat → Bool) : List Char → Option (Nat × List Char)
  | c1 :: c2 :: rest =>
    let v2 := digitVal c1 * 10 + digitVal c2
    if c1.isDigit && c2.isDigit && valid2 v2 then some (v2, rest)
    else if c1.isDigit && valid1 (digitVal c1) then some (digitVal c1, c2 :: rest)
    else none
  | [c1] =>
    if c1.isDigit && valid1 (digitVal c1) then some (digitVal c1, []) else none
  | [] => none

/-- The `%d` directive: `3[01]|[12]\d|0[1-9]|[1-9]`. -/
def takeDay : List Char → Option (Nat × List Char) :=
  take2or1 (fun v => decide (1 ≤ v ∧ v ≤ 31)) (fun v => decide (1 ≤ v))

/-- The `%m` directive: `1[0-2]|0[1-9]|[1-9]`. -/
def takeMonth : List Char → Option (Nat × List Char) :=
  take2or1 (fun v => decide (1 ≤ v ∧ v ≤ 12)) (fun v => decide (1 ≤ v))

/-- The `%H` directive: `2[0-3]|[0-1]\d|\d`. -/
def takeHour : List Char → Option (Nat × List Char) :=
  take2or1 (fun v => decide (v ≤ 23)) (fun _ => true)

/-- The `%M` and `%S` directives: `[0-5]\d|\d`. -/
def takeMinSec : List Char → Option (Nat × List Char) :=
  take2or1 (fun v => decide (v ≤ 59)) (fun _ => true)

/-- A literal character of the format (matched case-insensitively, as the
directive regex is compiled ignoring case). -/
def matchLit (c : Char) : List Char → Option (List Char)
  | d :: rest => if d.toLower = c.toLower then some rest else none
  | [] => none

/-- Drop a run of whitespace characters. -/
def dropWs : List Char → List Char
  | c :: rest => if c.isWhitespace then dropWs rest else c :: rest
  | [] => []

/-- A literal whitespace in the format: one or more whitespace
characters. -/
def matchWs : List Char → Option (List Char)
  | c :: rest => if c.isWhitespace then some (dropWs rest) else none
  | [] => none

/-- Consume up to `n` leading digits, returning how many were taken. -/
def takeUpToDigits : Nat → List Char → Nat × List Char
  | 0, cs => (0, cs)
  | n + 1, c :: rest =>
    if c.isDigit then
      let (k, r) := takeUpToDigits n rest
      (k + 1, r)
    else (0, c :: rest)
  | _ + 1, [] => (0, [])

/-- The `%z` directive: `Z` (uppercase only) or
`[+-]\d\d:?\d\d(:?\d\d(\.\d{1,6})?)?`; the resulting offset must be
strictly below 24 hours (a larger one makes the timezone constructor
raise, which the caller treats as pattern failure). -/
def takeTz : List Char → Option (Int × List Char)
  | 'Z' :: rest => some (0, rest)
  | c :: rest =>
    if c = '+' ∨ c = '-' then
      match takeDigitsAux 2 0 rest with
      | none => none
      | some (hh, r1) =>
        let r1b := match r1 with
          | ':' :: t => t
          | other => other
        match takeDigitsAux 2 0 r1b with
        | none => none
        | some (mm, r2) =>
          let secPart : Option (Nat × List Char) :=
            let r3 := match r2 with
              | ':' :: t => t
              | other => other
            match takeDigitsAux 2 0 r3 with
            | some (ss, r4) =>
              match r4 with
              | '.' :: t =>
                let (k, r5) := takeUpToDigits 6 t
                if k ≥ 1 then some (ss, r5) else some (ss, '.' :: t)
              | other => some (ss, other)
            | none => none
          let (ss, rest2) := match secPart with
            | some (ss, r) => (ss, r)
            | none => (0, r2)
          let total : Int := ((hh * 3600 + mm * 60 + ss : Nat) : Int)
          if total < 86400 then
            some (if c = '-' then -total else total, rest2)
          else none
    else none
  | [] => none

/-- Leap-year rule of the proleptic Gregorian calendar. -/
def isLeapYear (y : Nat) : Bool :=
  y % 4 = 0 && (y % 100 ≠ 0 || y % 400 = 0)

/-- Number of days in a month. -/
def daysInMonth (y m : Nat) : Nat :=
  if m = 2 then (if isLeapYear y then 29 else 28)
  else if m = 4 ∨ m = 6 ∨ m = 9 ∨ m = 11 then 30
  else 31

/-- Validity check applied by the datetime constructor after the regex
match: a positive year and a day that exists in the month. -/
def validYMD (y m d : Nat) : Bool :=
  decide (1 ≤ y) && decide (d ≤ daysInMonth y m)

/-- First pattern, `%Y-%m-%dT%H:%M:%S%z`. -/
def strptimeIsoTz (s : String) : Option PDateTime := do
  let (y, r1) ← takeDigitsAux 4 0 s.data
  let r2 ← matchLit '-' r1
  let (m, r3) ← takeMonth r2
  let r4 ← matchLit '-' r3
  let (d, r5) ← takeDay r4
  let r6 ← matchLit 'T' r5
  let (hh, r7) ← takeHour r6
  let r8 ← matchLit ':' r7
  let (mi, r9) ← takeMinSec r8
  let r10 ← matchLit ':' r9
  let (ss, r11) ← takeMinSec r10
  let (tz, r12) ← takeTz r11
  if r12 = [] ∧ validYMD y m d then
    some ⟨y, m, d, hh, mi, ss, some tz⟩
  else none

/-- Second pattern, `%Y-%m-%dT%H:%M:%S`. -/
def strptimeIsoNoTz (s : String) : Option PDateTime := do
  let (y, r1) ← takeDigitsAux 4 0 s.data
  let r2 ← matchLit '-' r1
  let (m, r3) ← takeMonth r2
  let r4 ← matchLit '-' r3
  let (d, r5) ← takeDay r4
  let r6 ← matchLit 'T' r5
  let (hh, r7) ← takeHour r6
  let r8 ← matchLit ':' r7
  let (mi, r9) ← takeMinSec r8
  let r10 ← matchLit ':' r9
  let (ss, r11) ← takeMinSec r10
  if r11 = [] ∧ validYMD y m d then
    some ⟨y, m, d, hh, mi, ss, none⟩
  else none

/-- Third pattern, `%d/%m/%Y %H:%M:%S`. -/
def strptimeDMY (s : String) : Option PDateTime := do
  let (d, r1) ← takeDay s.data
  let r2 ← matchLit '/' r1
  let (m, r3) ← takeMonth r2
  let r4 ← matchLit '/' r3
  let (y, r5) ← takeDigitsAux 4 0 r4
  let r6 ← matchWs r5
  let (hh, r7) ← takeHour r6
  let r8 ← matchLit ':' r7
  let (mi, r9) ← takeMinSec r8
  let r10 ← matchLit ':' r9
  let (ss, r11) ← takeMinSec r10
  if r11 = [] ∧ validYMD y m d then
    some ⟨y, m, d, hh, mi, ss, none⟩
  else none

/-- Fourth pattern, `%m/%d/%Y %H:%M:%S`. -/
def strptimeMDY (s : String) : Option PDateTime := do
  let (m, r1) ← takeMonth s.data
  let r2 ← matchLit '/' r1
  let (d, r3) ← takeDay r2
  let r4 ← matchLit '/' r3
  let (y, r5) ← takeDigitsAux 4 0 r4
  let r6 ← matchWs r5
  let (hh, r7) ← takeHour r6
  let r8 ← matchLit ':' r7
  let (mi, r9) ← takeMinSec r8
  let r10 ← matchLit ':' r9
  let (ss, r11) ← takeMinSec r10
  if r11 = [] ∧ validYMD y m d then
    some ⟨y, m, d, hh, mi, ss, none⟩
  else none

/-- Time-of-day tail of the ISO fallback: `HH[:MM[:SS[.ffffff]]]` with an
optional trailing `Z` or signed offset. -/
def isoTimePart (cs : List Char) : Option ((Nat × Nat × Nat) × Option Int) := do
  let (hh, r1) ← takeDigitsAux 2 0 cs
  let (mi, ss, r5) ←
    match r1 with
    | ':' :: t => do
      let (mi, r2) ← takeDigitsAux 2 0 t
      match r2 with
      | ':' :: t2 => do
        let (ss, r3) ← takeDigitsAux 2 0 t2
        let r4 := match r3 with
          | '.' :: t3 =>
            let (k, r) := takeUpToDigits 6 t3
            if k ≥ 1 then r else '.' :: t3
          | other => other
        pure (mi, ss, r4)
      | other => pure (mi, 0, other)
    | other => pure (0, 0, other)
  if ¬ (hh ≤ 23 ∧ mi ≤ 59 ∧ ss ≤ 59) then none
  else
    match r5 with
    | [] => pure ((hh, mi, ss), none)
    | _ =>
      match takeTz r5 with
      | some (tz, []) => pure ((hh, mi, ss), some tz)
      | _ => none

/-- Model of the ISO-8601 fallback `datetime.fromisoformat` on the grammar
relevant here: a `YYYY-MM-DD` (or compressed `YYYYMMDD`) date, optionally
followed by a separator and a time-of-day with optional offset. -/
def fromisoformat (s : String) : Option PDateTime := do
  let (y, r1) ← takeDigitsAux 4 0 s.data
  let (m, d, r5) ←
    match r1 with
    | '-' :: t => do
      let (m, r2) ← takeDigitsAux 2 0 t
      match r2 with
      | '-' :: t2 => do
        let (d, r3) ← takeDigitsAux 2 0 t2
        pure (m, d, r3)
      | _ => none
    | _ => do
      let (m, r2) ← takeDigitsAux 2 0 r1
      let (d, r3) ← takeDigitsAux 2 0 r2
      pure (m, d, r3)
  if ¬ (1 ≤ m ∧ m ≤ 12 ∧ validYMD y m d) then none
  else
    match r5 with
    | [] => pure ⟨y, m, d, 0, 0, 0, none⟩
    | sep :: t =>
      if sep = 'T' ∨ sep = 't' ∨ sep = ' ' then
        match isoTimePart t with
        | some ((hh, mi, ss), tz) => pure ⟨y, m, d, hh, mi, ss, tz⟩
        | none => none
      else none

/-- First-success combinator over a list of parsers: the order of the list
is the priority order and the first parser that succeeds wins. -/
def firstSome {α β : Type} : List (α → Option β) → α → Option β
  | [], _ => none
  | f :: rest, v =>
    match f v with
    | some d => some d
    | none => firstSome rest v

/-- The four fixed strptime patterns, in the source's priority order. -/
def bootTimeParsers : List (String → Option PDateTime) :=
  [strptimeIsoTz, strptimeIsoNoTz, strptimeDMY, strptimeMDY]

/-- CameraService._parse_system_boot_time: absent or empty input stays
absent; otherwise the four fixed patterns are tried in order, then the ISO
fallback, and if everything fails the invalid-format error is raised. -/
def parseSystemBootTime (value : Option String) : Except String (Option PDateTime) :=
  match value with
  | none => .ok none
  | some v =>
    if v = "" then .ok none
    else
      match firstSome bootTimeParsers v with
      | some d => .ok (some d)
      | none =>
        match fromisoformat v with
        | some d => .ok (some d)
        | none => .error ("Invalid systemBootTime format: " ++ v)

/-! ## ANPR domain: cameras and LPR events
(app/models/camera.py, app/models/event.py, app/schemas/event.py,
app/services/event_service.py) -/

/-- Row of `anpr_cameras` (the columns read by event resolution and
camera creation). -/
structure CameraRow where
  id : Nat
  model : String
  mac : String
  ipaddress : Option String
  device_name : Option String
  system_boot_time : Option PDateTime
  deriving Repr, DecidableEq

/-- Plate bounding box after schema validation (`PlateROISchema`: all four
coordinates are required fields). -/
structure PlateROI where
  x : Int
  y : Int
  width : Int
  height : Int
  deriving Repr, DecidableEq

/-- Raw JSON object presented for `PlateROI` (after alias normalisation);
each coordinate may be absent on the wire. -/
structure RawPlateROI where
  x : Option Int
  y : Option Int
  width : Option Int
  height : Option Int
  deriving Repr, DecidableEq

/-- Validation of `PlateROISchema`: every one of `X`, `Y`, `Width`,
`Height` is a required field, so a partially supplied object fails
validation. -/
def validatePlateROI (r : RawPlateROI) : Option PlateROI :=
  match r.x, r.y, r.width, r.height with
  | some a, some b, some c, some d =>
    some { x := a, y := b, width := c, height := d }
  | _, _, _, _ => none

/-- DeviceInfo section of the validated ingestion payload
(`DeviceInfoSchema`: `device_name` and `device_ip` required). -/
structure DeviceInfo where
  device_name : String
  device_ip : String
  device_model : Option String
  firmware_version : Option String
  deriving Repr, DecidableEq

/-- EventInfo section of the validated ingestion payload
(`EventInfoSchema`). `event_time` keeps the minute-based clock. -/
structure EventInfo where
  event_type : String
  event_id : String
  event_time : Nat
  event_description : Option String
  deriving Repr, DecidableEq

/-- PlateInfo section of the validated ingestion payload
(`PlateInfoSchema`). -/
structure PlateInfo where
  plate_number : String
  plate_roi : Option PlateROI
  deriving Repr, DecidableEq

/-- Validated event-creation payload (`LprEventCreate`). The four optional
sub-event sections are irrelevant to the verified claims and are elided. -/
structure LprEventCreateP where
  camera_id : Option Int
  device_info : DeviceInfo
  event_info : EventInfo
  plate_info : PlateInfo
  deriving Repr, DecidableEq

/-- Raw ingestion payload as far as the ROI claims need it: identical to
the validated payload except that the nested `PlateROI` object is still
the raw wire object.  Validation (`parseLprEventCreate`) fails exactly
when a supplied ROI object is missing any of its four required fields; the
remaining required fields are already carried as typed values. -/
structure RawLprEventCreate where
  camera_id : Option Int
  device_info : DeviceInfo
  event_info : EventInfo
  plate_number : String
  plate_roi : Option RawPlateROI
  deriving Repr, DecidableEq

/-- Schema validation of the ingestion payload, restricted to the ROI
all-or-nothing behaviour: a supplied `PlateROI` object must carry all four
coordinates or the whole request is rejected before any service logic
runs. -/
def parseLprEventCreate (raw : RawLprEventCreate) : Option LprEventCreateP :=
  match raw.plate_roi with
  | none =>
    some { camera_id := raw.camera_id, device_info := raw.device_info,
           event_info := raw.event_info,
           plate_info := { plate_number := raw.plate_number, plate_roi := none } }
  | some r =>
    match validatePlateROI r with
    | none => none
    | some roi =>
      some { camera_id := raw.camera_id, device_info := raw.device_info,
             event_info := raw.event_info,
             plate_info := { plate_number := raw.plate_number,
                             plate_roi := some roi } }

/-- Row of `lpr_events` (the columns the verified claims read). -/
structure LprEventRow where
  id : Nat
  camera_id : Option Nat
  device_name : String
  device_ip : String
  event_type : String
  event_uid : String
  event_time : Nat
  plate_number : String
  plate_roi_x : Option Int
  plate_roi_y : Option Int
  plate_roi_width : Option Int
  plate_roi_height : Option Int
  deriving Repr, DecidableEq

/-- ANPR database state. -/
structure EventDB where
  cameras : List CameraRow
  events : List LprEventRow
  deriving Repr, DecidableEq

/-- SQLAlchemy `scalar_one_or_none`: absent when no row matches, the row
when exactly one matches, and a `MultipleResultsFound` error when several
do. -/
def scalarOneOrNone (l : List α) (pred : α → Bool) : Except String (Option α) :=
  match l.filter pred with
  | [] => .ok none
  | [a] => .ok (some a)
  | _ => .error "MultipleResultsFound"

/-- Device-name fallback of `EventService._resolve_camera_id` (third
priority). -/
def resolveByDeviceName (cams : List CameraRow) (p : LprEventCreateP) :
    Except String (Option Nat) :=
  if p.device_info.device_name ≠ "" then
    match scalarOneOrNone cams
        (fun c => c.device_name = some p.device_info.device_name) with
    | .error e => .error e
    | .ok (some c) => .ok (some c.id)
    | .ok none => .ok none
  else .ok none

/-- First priority of `EventService._resolve_camera_id`: a truthy,
positive explicit `camera_id` that resolves by primary key
(`self.db.get(Camera, candidate_id)`). -/
def resolveByExplicitId (cams : List CameraRow) (p : LprEventCreateP) :
    Option Nat :=
  match p.camera_id with
  | some cid =>
    if cid ≠ 0 ∧ cid > 0 then
      (cams.find? fun c => (c.id : Int) = cid).map (fun c => c.id)
    else none
  | none => none

/-- EventService._resolve_camera_id: (1) a truthy, positive explicit
`camera_id` resolving by primary key, else (2) a camera whose `ipaddress`
equals the payload's (truthy) device IP, else (3) a camera whose
`device_name` equals the payload's (truthy) device name, else no
resolution. -/
def resolveCameraId (cams : List CameraRow) (p : LprEventCreateP) :
    Except String (Option Nat) :=
  match resolveByExplicitId cams p with
  | some i => .ok (some i)
  | none =>
    if p.device_info.device_ip ≠ "" then
      match scalarOneOrNone cams
          (fun c => c.ipaddress = some p.device_info.device_ip) with
      | .error e => .error e
      | .ok (some c) => .ok (some c.id)
      | .ok none => resolveByDeviceName cams p
    else resolveByDeviceName cams p

/-- The `LprEvent` row `EventService.create_event` builds from the payload
sections once the camera has been resolved to `cid` (`nextId` stands for
the autoincrement key). -/
def mkEventRow (p : LprEventCreateP) (nextId : Nat) (cid : Nat) : LprEventRow :=
  { id := nextId, camera_id := some cid,
    device_name := p.device_info.device_name,
    device_ip := p.device_info.device_ip,
    event_type := p.event_info.event_type,
    event_uid := p.event_info.event_id,
    event_time := p.event_info.event_time,
    plate_number := p.plate_info.plate_number,
    plate_roi_x := p.plate_info.plate_roi.map (fun r => r.x),
    plate_roi_y := p.plate_info.plate_roi.map (fun r => r.y),
    plate_roi_width := p.plate_info.plate_roi.map (fun r => r.width),
    plate_roi_height := p.plate_info.plate_roi.map (fun r => r.height) }

/-- EventService.create_event: resolve the camera (404-style
`CameraNotFoundError` when unresolvable, before anything is persisted),
then insert one `LprEvent` row built from the payload sections. -/
def createEvent (db : EventDB) (p : LprEventCreateP) (nextId : Nat) :
    EventDB × Except String LprEventRow :=
  match resolveCameraId db.cameras p with
  | .error e => (db, .error e)
  | .ok none => (db, .error "CameraNotFound")
  | .ok (some cid) =>
    let row := mkEventRow p nextId cid
    ({ db with events := db.events ++ [row] }, .ok row)

/-- Full ingestion pipeline for a raw payload: schema validation (a 422
rejection is `.error "ValidationError"`, before any database work) then
`createEvent`. -/
def ingestEvent (db : EventDB) (raw : RawLprEventCreate) (nextId : Nat) :
    EventDB × Except String LprEventRow :=
  match parseLprEventCreate raw with
  | none => (db, .error "ValidationError")
  | some p => createEvent db p nextId

/-- ROI block of `EventService._to_read_schema`: the read projection
carries a `plate_roi` object exactly when all four stored coordinates are
present, and null otherwise. -/
def readPlateROI (e : LprEventRow) : Option PlateROI :=
  match e.plate_roi_x, e.plate_roi_y, e.plate_roi_width, e.plate_roi_height with
  | some a, some b, some c, some d =>
    some { x := a, y := b, width := c, height := d }
  | _, _, _, _ => none

/-- Camera-creation payload (`CameraCreate` schema: the fields relevant
here; `system_boot_time` arrives as a string). -/
structure CameraCreateP where
  model : String
  mac : String
  ipaddress : Option String
  device_name : Option String
  system_boot_time : Option String
  deriving Repr, DecidableEq

/-- CameraService.create_camera: parse the boot-time string (a
`ValueError` aborts before anything is committed), then insert the new
camera row. -/
def createCamera (cams : List CameraRow) (p : CameraCreateP) (nextId : Nat) :
    List CameraRow × Except String CameraRow :=
  match parseSystemBootTime p.system_boot_time with
  | .error e => (cams, .error e)
  | .ok t =>
    let cam : CameraRow :=
      { id := nextId, model := p.model, mac := p.mac,
        ipaddress := p.ipaddress, device_name := p.device_name,
        system_boot_time := t }
    (cams ++ [cam], .ok cam)

/-! ## Shared middleware and audit emitter
(services/shared/middleware/request_logging.py,
services/shared/utils/logging_context.py modelled through its observable
operations, services/shared/audit/init) -/

/-- ASCII lower-casing of a character (the only characters header names
carry). -/
def lcChar (c : Char) : Char :=
  if 65 ≤ c.toNat ∧ c.toNat ≤ 90 then Char.ofNat (c.toNat + 32) else c

/-- ASCII lower-casing of a string (Python `str.lower()` on a header
name). -/
def lcString (s : String) : String := ⟨s.data.map lcChar⟩

/-- HTTP request headers: a name/value list looked up
case-insensitively. -/
def hget (hs : List (String × String)) (name : String) : Option String :=
  (hs.find? fun p => lcString p.fst = lcString name).map (fun p => p.snd)

/-- Header lookup with Python truthiness: an empty value counts as
absent (`if header_value:`). -/
def hgetTruthy (hs : List (String × String)) (name : String) : Option String :=
  match hget hs name with
  | some v => if v = "" then none else some v
  | none => none

/-- RequestLoggingMiddleware._resolve_correlation_id: the configured
correlation header (lower-cased) first, then `x-correlation-id`,
`x-request-id`, `traceparent` in that order, and otherwise a freshly
generated service-prefixed id (`freshId` stands for
`generate_correlation_id(prefix=service_name)`). -/
def resolveCorrelationId (correlationHeader : String)
    (hs : List (String × String)) (freshId : String) : String :=
  match hgetTruthy hs (lcString correlationHeader) with
  | some v => v
  | none =>
    match hgetTruthy hs "x-correlation-id" with
    | some v => v
    | none =>
      match hgetTruthy hs "x-request-id" with
      | some v => v
      | none =>
        match hgetTruthy hs "traceparent" with
        | some v => v
        | none => freshId

/-- The ambient logging context as bound by
`RequestLoggingMiddleware.dispatch` on entry (after `clear_context`):
only the fields the audit emitter reads back. -/
structure LogCtx where
  correlation_id : Option String := none
  request_id : Option String := none
  client_ip : Option String := none
  user_agent : Option String := none
  user_id : Option String := none
  route_template : Option String := none
  deriving Repr, DecidableEq

/-- Middleware entry (`dispatch` before calling the handler): clear the
context, set the resolved correlation id, bind the request fields, and
record the verbatim `x-request-id` header. -/
def dispatchContext (correlationHeader : String)
    (hs : List (String × String)) (freshId : String)
    (clientHost : Option String) : LogCtx :=
  { correlation_id := some (resolveCorrelationId correlationHeader hs freshId),
    request_id := hget hs "x-request-id",
    client_ip :=
      match hget hs "x-forwarded-for" with
      | some v => some (((v.splitOn ",").headD v).trim)
      | none => clientHost,
    user_agent := hget hs "user-agent",
    user_id := none,
    route_template := none }

/-- The finally-block header write
`response.headers.setdefault(self.correlation_header, correlation_id)`:
keeps an existing value, otherwise installs the resolved id. -/
def responseCorrelationHeader (existing : Option String)
    (correlationId : String) : String :=
  existing.getD correlationId

/-- Python `a or b` for optional strings: the right side wins when the
left is absent or empty. -/
def orTruthy (a b : Option String) : Option String :=
  match a with
  | some s => if s = "" then b else some s
  | none => b

/-- The audit event fields whose construction the verified claim
observes. -/
structure AuditEventRec where
  action : String
  actor_id : Option String
  correlation_id : Option String
  request_id : Option String
  ip_address : Option String
  user_agent : Option String
  deriving Repr, DecidableEq

/-- AuditEvent construction (`__post_init__`): correlation id, request
id, ip and user agent fall back to the ambient context when not explicitly
supplied (Python `or`, so an explicit empty string also falls back), and a
missing actor falls back to the context's user id. -/
def mkAuditEvent (ctx : LogCtx) (action : String)
    (actor_id correlation_id request_id ip_address user_agent : Option String) :
    AuditEventRec :=
  { action := action,
    actor_id := orTruthy actor_id ctx.user_id,
    correlation_id := orTruthy correlation_id ctx.correlation_id,
    request_id := orTruthy request_id ctx.request_id,
    ip_address := orTruthy ip_address ctx.client_ip,
    user_agent := orTruthy user_agent ctx.user_agent }

/-! ## Theorems -/

/-- C2 counterexample: registering a second user with an already-taken
email is rejected, but with HTTP 400 (the code's
`HTTP_400_BAD_REQUEST`), not with the HTTP 409 conflict status the claim
names. -/
theorem C2_register_duplicate_counterexample :
    (registerUser
        { users := [{ id := 1, email := "a@b.c", username := "alice",
                      is_active := true, is_verified := false,
                      is_superuser := false, failed_login_attempts := 0,
                      locked_until := none, last_login := none }],
          refresh_tokens := [] }
        { email := "a@b.c", username := "bob" } 2).snd = .error 400 ∧
    (400 : Nat) ≠ 409 := by
  constructor
  · rfl
  · decide

/-- C2 (amended): registration with a duplicate email or username is
rejected with HTTP 400 and leaves the user table unchanged; with a fresh
email and username it creates a user with `is_active=true`,
`is_verified=false`, `is_superuser=false`. -/
theorem C2_register_duplicate_rejected (db : AuthDB) (p : UserRegister)
    (nextId : Nat) :
    ((db.users.any (fun u => u.email = p.email) = true ∨
      db.users.any (fun u => u.username = p.username) = true) →
      registerUser db p nextId = (db, .error 400)) ∧
    (db.users.any (fun u => u.email = p.email) = false →
     db.users.any (fun u => u.username = p.username) = false →
      ∃ u, registerUser db p nextId =
            ({ db with users := db.users ++ [u] }, .ok u) ∧
          u.email = p.email ∧ u.username = p.username ∧
          u.is_active = true ∧ u.is_verified = false ∧ u.is_superuser = false) := by
  constructor
  · intro h
    rcases h with h | h
    · simp [registerUser, h]
    · by_cases he : db.users.any (fun u => u.email = p.email)
      · simp [registerUser, he]
      · simp [registerUser, he, h]
  · intro he hu
    refine ⟨{ id := nextId, email := p.email, username := p.username,
              is_active := true, is_verified := false, is_superuser := false,
              failed_login_attempts := 0, locked_until := none,
              last_login := none }, ?_, rfl, rfl, rfl, rfl, rfl⟩
    simp [registerUser, he, hu]

/-- C2 witness: the amended theorem applied at a concrete duplicate-email
registration and at a concrete fresh registration. -/
theorem C2_register_duplicate_rejected_witness :
    registerUser
        { users := [{ id := 1, email := "a@b.c", username := "alice",
                      is_active := true, is_verified := false,
                      is_superuser := false, failed_login_attempts := 0,
                      locked_until := none, last_login := none }],
          refresh_tokens := [] }
        { email := "a@b.c", username := "bob" } 2 =
      ({ users := [{ id := 1, email := "a@b.c", username := "alice",
                     is_active := true, is_verified := false,
                     is_superuser := false, failed_login_attempts := 0,
                     locked_until := none, last_login := none }],
         refresh_tokens := [] }, .error 400) :=
  (C2_register_duplicate_rejected _ _ 2).1 (Or.inl (by decide))

/-- C5: a system role can be neither renamed nor deactivated nor deleted;
each such attempt fails with 400 and returns the database unchanged (the
exception fires before any mutation). -/
theorem C5_system_role_protection (db : RoleDB) (rid : Nat) (role : RoleRow)
    (p : RoleUpdatePayload)
    (hfind : db.roles.find? (fun r => r.id = rid) = some role)
    (hsys : role.is_system = true) :
    ((optTruthy p.name = true ∨ p.is_active = some false) →
      updateRole db rid p = (db, .error 400)) ∧
    deleteRole db rid = (db, .error 400) := by
  constructor
  · intro h
    simp only [updateRole, hfind]
    have : (role.is_system ∧ (optTruthy p.name ∨ p.is_active = some false)) = true := by
      simp [hsys]
      tauto
    simp [this]
  · simp [deleteRole, hfind, hsys]

/-- C5 witness: the protection theorem applied to a concrete system role,
for a rename attempt, a deactivation attempt and a delete. -/
theorem C5_system_role_protection_witness :
    (updateRole
        { roles := [{ id := 3, name := "super_admin", description := none,
                      is_active := true, is_system := true,
                      permission_ids := [1], service_access := [] }],
          permissions := [], services := [] } 3
        { name := some "renamed", description := none, is_active := none,
          permission_ids := none, service_access := none } =
      ({ roles := [{ id := 3, name := "super_admin", description := none,
                     is_active := true, is_system := true,
                     permission_ids := [1], service_access := [] }],
         permissions := [], services := [] }, .error 400)) ∧
    (updateRole
        { roles := [{ id := 3, name := "super_admin", description := none,
                      is_active := true, is_system := true,
                      permission_ids := [1], service_access := [] }],
          permissions := [], services := [] } 3
        { name := none, description := none, is_active := some false,
          permission_ids := none, service_access := none } =
      ({ roles := [{ id := 3, name := "super_admin", description := none,
                     is_active := true, is_system := true,
                     permission_ids := [1], service_access := [] }],
         permissions := [], services := [] }, .error 400)) ∧
    (deleteRole
        { roles := [{ id := 3, name := "super_admin", description := none,
                      is_active := true, is_system := true,
                      permission_ids := [1], service_access := [] }],
          permissions := [], services := [] } 3 =
      ({ roles := [{ id := 3, name := "super_admin", description := none,
                     is_active := true, is_system := true,
                     permission_ids := [1], service_access := [] }],
         permissions := [], services := [] }, .error 400)) :=
  ⟨(C5_system_role_protection
      { roles := [{ id := 3, name := "super_admin", description := none,
                    is_active := true, is_system := true,
                    permission_ids := [1], service_access := [] }],
        permissions := [], services := [] } 3
      { id := 3, name := "super_admin", description := none,
        is_active := true, is_system := true,
        permission_ids := [1], service_access := [] }
      { name := some "renamed", description := none, is_active := none,
        permission_ids := none, service_access := none }
      (by decide) (by decide)).1 (Or.inl (by decide)),
   (C5_system_role_protection
      { roles := [{ id := 3, name := "super_admin", description := none,
                    is_active := true, is_system := true,
                    permission_ids := [1], service_access := [] }],
        permissions := [], services := [] } 3
      { id := 3, name := "super_admin", description := none,
        is_active := true, is_system := true,
        permission_ids := [1], service_access := [] }
      { name := none, description := none, is_active := some false,
        permission_ids := none, service_access := none }
      (by decide) (by decide)).1 (Or.inr (by decide)),
   (C5_system_role_protection
      { roles := [{ id := 3, name := "super_admin", description := none,
                    is_active := true, is_system := true,
                    permission_ids := [1], service_access := [] }],
        permissions := [], services := [] } 3
      { id := 3, name := "super_admin", description := none,
        is_active := true, is_system := true,
        permission_ids := [1], service_access := [] }
      { name := none, description := none, is_active := none,
        permission_ids := none, service_access := none }
      (by decide) (by decide)).2⟩

/-- C7: logout-all always reports success; afterwards every refresh token
owned by the user is revoked, and an immediately repeated call still
reports success while revoking zero additional tokens. -/
theorem C7_logout_all_idempotent (db : AuthDB) (uid now now2 : Nat) :
    (logoutAll db uid now).2.1 = true ∧
    (∀ r ∈ ((logoutAll db uid now).1).refresh_tokens,
      r.user_id = uid → r.is_revoked = true) ∧
    (logoutAll ((logoutAll db uid now).1) uid now2).2.1 = true ∧
    (logoutAll ((logoutAll db uid now).1) uid now2).2.2 = 0 := by
  refine ⟨rfl, ?_, rfl, ?_⟩
  · intro r hr hru
    simp only [logoutAll, List.mem_map] at hr
    obtain ⟨a, _, rfl⟩ := hr
    by_cases hp : a.user_id = uid ∧ a.is_revoked = false
    · simp [hp]
    · rw [if_neg hp]
      rw [if_neg hp] at hru
      cases h : a.is_revoked with
      | true => rfl
      | false => exact absurd ⟨hru, h⟩ hp
  · simp only [logoutAll, List.length_eq_zero, List.filter_eq_nil_iff]
    intro a ha
    simp only [List.mem_map] at ha
    obtain ⟨b, _, rfl⟩ := ha
    by_cases hp : b.user_id = uid ∧ b.is_revoked = false
    · simp [hp]
    · rw [if_neg hp]
      simp [hp]

/-- C7 witness: the idempotence theorem applied to a concrete database
with two live tokens for the user and one for someone else. -/
theorem C7_logout_all_idempotent_witness :
    ((logoutAll
        { users := [],
          refresh_tokens :=
            [{ token := "t1", user_id := 7, expires_at := 100,
               is_revoked := false, revoked_at := none },
             { token := "t2", user_id := 7, expires_at := 200,
               is_revoked := false, revoked_at := none },
             { token := "t3", user_id := 8, expires_at := 300,
               is_revoked := false, revoked_at := none }] } 7 5).2.1 = true) ∧
    ((logoutAll
        ((logoutAll
          { users := [],
            refresh_tokens :=
              [{ token := "t1", user_id := 7, expires_at := 100,
                 is_revoked := false, revoked_at := none },
               { token := "t2", user_id := 7, expires_at := 200,
                 is_revoked := false, revoked_at := none },
               { token := "t3", user_id := 8, expires_at := 300,
                 is_revoked := false, revoked_at := none }] } 7 5).1) 7 6).2.2 = 0) :=
  ⟨(C7_logout_all_idempotent
      { users := [],
        refresh_tokens :=
          [{ token := "t1", user_id := 7, expires_at := 100,
             is_revoked := false, revoked_at := none },
           { token := "t2", user_id := 7, expires_at := 200,
             is_revoked := false, revoked_at := none },
           { token := "t3", user_id := 8, expires_at := 300,
             is_revoked := false, revoked_at := none }] } 7 5 6).1,
   (C7_logout_all_idempotent
      { users := [],
        refresh_tokens :=
          [{ token := "t1", user_id := 7, expires_at := 100,
             is_revoked := false, revoked_at := none },
           { token := "t2", user_id := 7, expires_at := 200,
             is_revoked := false, revoked_at := none },
           { token := "t3", user_id := 8, expires_at := 300,
             is_revoked := false, revoked_at := none }] } 7 5 6).2.2.2⟩

/-- C10: `has_role` and `has_permission` ignore the `is_active` flags of
roles and permissions — any assigned role with the right name (and any
permission matching by full name or bare name through any assigned role)
satisfies the gate, so for an active, unlocked user the role and
permission guards pass regardless of those flags. -/
theorem C10_gates_ignore_active_flags (u : UserObj) (now : Nat) (r : RoleObj)
    (p : PermObj) (rn pn : String)
    (hr : r ∈ u.roles) (hrn : r.name = rn)
    (hp : p ∈ r.permissions) (hpn : p.fullName = pn ∨ p.name = pn)
    (hactive : u.is_active = true)
    (hlock : ∀ t, u.locked_until = some t → ¬ t > now) :
    u.hasRole rn = true ∧ u.hasPermission pn = true ∧
    requireRole rn u now = .ok u ∧ requirePermission pn u now = .ok u := by
  have h1 : u.hasRole rn = true :=
    List.any_eq_true.mpr ⟨r, hr, by simp [hrn]⟩
  have h2 : u.hasPermission pn = true :=
    List.any_eq_true.mpr ⟨r, hr, List.any_eq_true.mpr
      ⟨p, hp, by rcases hpn with h | h <;> simp [h]⟩⟩
  have hact : getCurrentActiveUser u now = .ok u := by
    unfold getCurrentActiveUser
    cases hu : u.locked_until with
    | none => simp [hactive]
    | some t => simp [hactive, hlock t hu]
  refine ⟨h1, h2, ?_, ?_⟩
  · simp only [requireRole, hact]
    show (if u.hasRole rn = true then Except.ok u else Except.error 403) =
      Except.ok u
    exact if_pos h1
  · simp only [requirePermission, hact]
    show (if u.hasPermission pn = true then Except.ok u else Except.error 403) =
      Except.ok u
    exact if_pos h2

/-- C10 witness: a deactivated role carrying a deactivated permission
still opens both gates for a concrete active user. -/
theorem C10_gates_ignore_active_flags_witness :
    UserObj.hasRole
      { id := 9, is_active := true, is_superuser := false,
        locked_until := none,
        roles := [{ name := "auditor", is_active := false,
                    permissions := [{ name := "report-read",
                                      resource := "report", action := "read",
                                      is_active := false }] }] } "auditor" = true ∧
    UserObj.hasPermission
      { id := 9, is_active := true, is_superuser := false,
        locked_until := none,
        roles := [{ name := "auditor", is_active := false,
                    permissions := [{ name := "report-read",
                                      resource := "report", action := "read",
                                      is_active := false }] }] } "report:read" = true :=
  ⟨(C10_gates_ignore_active_flags
      { id := 9, is_active := true, is_superuser := false,
        locked_until := none,
        roles := [{ name := "auditor", is_active := false,
                    permissions := [{ name := "report-read",
                                      resource := "report", action := "read",
                                      is_active := false }] }] } 0
      { name := "auditor", is_active := false,
        permissions := [{ name := "report-read", resource := "report",
                          action := "read", is_active := false }] }
      { name := "report-read", resource := "report", action := "read",
        is_active := false }
      "auditor" "report:read" (by decide) (by decide) (by decide)
      (Or.inl (by decide)) (by decide) (by intro t ht; cases ht)).1,
   (C10_gates_ignore_active_flags
      { id := 9, is_active := true, is_superuser := false,
        locked_until := none,
        roles := [{ name := "auditor", is_active := false,
                    permissions := [{ name := "report-read",
                                      resource := "report", action := "read",
                                      is_active := false }] }] } 0
      { name := "auditor", is_active := false,
        permissions := [{ name := "report-read", resource := "report",
                          action := "read", is_active := false }] }
      { name := "report-read", resource := "report", action := "read",
        is_active := false }
      "auditor" "report:read" (by decide) (by decide) (by decide)
      (Or.inl (by decide)) (by decide) (by intro t ht; cases ht)).2.1⟩

/-- C1 counterexample: for a user whose `locked_until` (200) is still in
the future (now = 100), a login attempt with a wrong password is rejected
with 401 invalid-credentials — not with the forbidden 403 the claim
asserts for every login attempt during the lock window (the password check
runs before the lock check). -/
theorem C1_login_lockout_counterexample :
    (login
        { users := [{ id := 1, email := "b@c.d", username := "bob",
                      is_active := true, is_verified := false,
                      is_superuser := false, failed_login_attempts := 5,
                      locked_until := some 200, last_login := none }],
          refresh_tokens := [] }
        "bob" (fun _ => false) 100 "atk" "rtk").snd = .error 401 ∧
    (401 : Nat) ≠ 403 := by
  constructor
  · rfl
  · decide

/-- C1 (amended): a 5th wrong-password attempt (4 prior failures) sets
`locked_until = now + 30 minutes`; while `locked_until` is in the future,
a correct-password attempt on an active account is rejected with 403 and
no token is issued and nothing changes; a wrong-password attempt is
likewise rejected with no token, but with 401 invalid-credentials, and it
further increments the failure counter. -/
theorem C1_login_lockout (db : AuthDB) (username : String)
    (credOk : AuthUser → Bool) (now : Nat) (atk rtk : String) (u : AuthUser)
    (hfind : db.users.find? (fun v => v.username = username) = some u) :
    (credOk u = false → u.failed_login_attempts = 4 →
      login db username credOk now atk rtk =
        ({ db with users := updateUserRow db.users u.id (handleFailedLogin u now) },
         .error 401) ∧
      (handleFailedLogin u now).locked_until = some (now + 30) ∧
      (handleFailedLogin u now).failed_login_attempts = 5) ∧
    (∀ t, credOk u = true → u.is_active = true → u.locked_until = some t →
      t > now →
      login db username credOk now atk rtk = (db, .error 403)) ∧
    (credOk u = false →
      login db username credOk now atk rtk =
        ({ db with users := updateUserRow db.users u.id (handleFailedLogin u now) },
         .error 401)) := by
  refine ⟨?_, ?_, ?_⟩
  · intro hc hfa
    refine ⟨?_, ?_, ?_⟩
    · simp [login, hfind, hc]
    · simp [handleFailedLogin, hfa]
    · simp [handleFailedLogin, hfa]
  · intro t hc hact hlocked ht
    simp [login, hfind, hc, hact, hlocked, ht]
  · intro hc
    simp [login, hfind, hc]

/-- C1 witness: the amended theorem applied to a user with 4 prior failed
attempts receiving a 5th wrong password, and to a locked active user
presenting the correct password. -/
theorem C1_login_lockout_witness :
    ((handleFailedLogin
        { id := 1, email := "b@c.d", username := "bob", is_active := true,
          is_verified := false, is_superuser := false,
          failed_login_attempts := 4, locked_until := none,
          last_login := none } 100).locked_until = some 130) ∧
    (login
        { users := [{ id := 1, email := "b@c.d", username := "bob",
                      is_active := true, is_verified := false,
                      is_superuser := false, failed_login_attempts := 5,
                      locked_until := some 200, last_login := none }],
          refresh_tokens := [] }
        "bob" (fun _ => true) 100 "atk" "rtk" =
      ({ users := [{ id := 1, email := "b@c.d", username := "bob",
                     is_active := true, is_verified := false,
                     is_superuser := false, failed_login_attempts := 5,
                     locked_until := some 200, last_login := none }],
         refresh_tokens := [] }, .error 403)) :=
  ⟨((C1_login_lockout
      { users := [{ id := 1, email := "b@c.d", username := "bob",
                    is_active := true, is_verified := false,
                    is_superuser := false, failed_login_attempts := 4,
                    locked_until := none, last_login := none }],
        refresh_tokens := [] }
      "bob" (fun _ => false) 100 "atk" "rtk"
      { id := 1, email := "b@c.d", username := "bob", is_active := true,
        is_verified := false, is_superuser := false,
        failed_login_attempts := 4, locked_until := none, last_login := none }
      (by decide)).1 (by decide) (by decide)).2.1,
   (C1_login_lockout
      { users := [{ id := 1, email := "b@c.d", username := "bob",
                    is_active := true, is_verified := false,
                    is_superuser := false, failed_login_attempts := 5,
                    locked_until := some 200, last_login := none }],
        refresh_tokens := [] }
      "bob" (fun _ => true) 100 "atk" "rtk"
      { id := 1, email := "b@c.d", username := "bob", is_active := true,
        is_verified := false, is_superuser := false,
        failed_login_attempts := 5, locked_until := some 200,
        last_login := none }
      (by decide)).2.1 200 (by decide) (by decide) (by decide) (by decide)⟩

/-- C3: refresh is non-rotating — whenever the presented token decodes
with type refresh, matches a stored non-revoked, non-expired row of an
existing active user, the returned pair echoes back the presented refresh
token unchanged, the database is not modified, and repeating the refresh
on the resulting state succeeds identically. -/
theorem C3_refresh_non_rotating (decode : String → Option TokenPayload)
    (mkAccess : String → String) (db : AuthDB) (tok : String) (now : Nat)
    (p : TokenPayload) (s : String) (uid : Nat) (row : RefreshTokenRow)
    (u : AuthUser)
    (hdec : decode tok = some p) (hty : p.ptype = some "refresh")
    (hsub : p.sub = some s) (hs : s ≠ "") (hnat : pyInt? s = some uid)
    (hrow : db.refresh_tokens.find?
      (fun r => r.token = tok ∧ r.user_id = uid ∧ r.is_revoked = false) =
        some row)
    (hexp : ¬ now ≥ row.expires_at)
    (huser : db.users.find? (fun v => v.id = uid) = some u)
    (hact : u.is_active = true) :
    refreshAccessToken decode mkAccess db tok now =
      (db, .ok { access_token := mkAccess (toString u.id),
                 refresh_token := tok, token_type := "bearer",
                 expires_in := ACCESS_TOKEN_EXPIRE_MINUTES * 60 }) ∧
    refreshAccessToken decode mkAccess
        ((refreshAccessToken decode mkAccess db tok now).1) tok now =
      refreshAccessToken decode mkAccess db tok now := by
  have main : refreshAccessToken decode mkAccess db tok now =
      (db, .ok { access_token := mkAccess (toString u.id),
                 refresh_token := tok, token_type := "bearer",
                 expires_in := ACCESS_TOKEN_EXPIRE_MINUTES * 60 }) := by
    have hrow2 : db.refresh_tokens.find?
        (fun r => decide (r.token = tok) &&
          (decide (r.user_id = uid) && !r.is_revoked)) = some row := by
      simpa using hrow
    simp [refreshAccessToken, hdec, hty, hsub, optTruthy, hs, hnat, hrow2,
      RefreshTokenRow.isExpired, hexp, huser, hact]
  refine ⟨main, ?_⟩
  rw [main]
  exact main

/-- C3 witness: the theorem applied to a concrete database holding one
live refresh-token row for an active user, with a concrete decoder. -/
theorem C3_refresh_non_rotating_witness :
    refreshAccessToken
        (fun t => if t = "rt" then
          some { sub := some "1", ptype := some "refresh" } else none)
        (fun s => "acc-" ++ s)
        { users := [{ id := 1, email := "b@c.d", username := "bob",
                      is_active := true, is_verified := false,
                      is_superuser := false, failed_login_attempts := 0,
                      locked_until := none, last_login := none }],
          refresh_tokens := [{ token := "rt", user_id := 1,
                               expires_at := 500, is_revoked := false,
                               revoked_at := none }] } "rt" 100 =
      ({ users := [{ id := 1, email := "b@c.d", username := "bob",
                     is_active := true, is_verified := false,
                     is_superuser := false, failed_login_attempts := 0,
                     locked_until := none, last_login := none }],
         refresh_tokens := [{ token := "rt", user_id := 1,
                              expires_at := 500, is_revoked := false,
                              revoked_at := none }] },
       .ok { access_token := "acc-1", refresh_token := "rt",
             token_type := "bearer",
             expires_in := ACCESS_TOKEN_EXPIRE_MINUTES * 60 }) :=
  (C3_refresh_non_rotating
      (fun t => if t = "rt" then
        some { sub := some "1", ptype := some "refresh" } else none)
      (fun s => "acc-" ++ s)
      { users := [{ id := 1, email := "b@c.d", username := "bob",
                    is_active := true, is_verified := false,
                    is_superuser := false, failed_login_attempts := 0,
                    locked_until := none, last_login := none }],
        refresh_tokens := [{ token := "rt", user_id := 1,
                             expires_at := 500, is_revoked := false,
                             revoked_at := none }] } "rt" 100
      { sub := some "1", ptype := some "refresh" } "1" 1
      { token := "rt", user_id := 1, expires_at := 500, is_revoked := false,
        revoked_at := none }
      { id := 1, email := "b@c.d", username := "bob", is_active := true,
        is_verified := false, is_superuser := false,
        failed_login_attempts := 0, locked_until := none, last_login := none }
      (by decide) (by decide) (by decide) (by decide) (by decide)
      (by decide) (by decide) (by decide) (by decide)).1

/-- C4: camera resolution follows the priority order explicit id, device
IP, device name; a valid explicit `camera_id` wins unconditionally (so an
IP pointing at a different camera is ignored) and the created event is
attributed to it; when nothing resolves, creation fails with the
camera-not-found error and no event row is persisted. -/
theorem C4_camera_resolution_priority (db : EventDB) (p : LprEventCreateP)
    (nextId : Nat) :
    (∀ cid cam, p.camera_id = some cid → 0 < cid →
      db.cameras.find? (fun c => (c.id : Int) = cid) = some cam →
      resolveCameraId db.cameras p = .ok (some cam.id) ∧
      createEvent db p nextId =
        ({ db with events := db.events ++ [mkEventRow p nextId cam.id] },
         .ok (mkEventRow p nextId cam.id)) ∧
      (mkEventRow p nextId cam.id).camera_id = some cam.id) ∧
    (∀ cam2, resolveByExplicitId db.cameras p = none →
      p.device_info.device_ip ≠ "" →
      db.cameras.filter
        (fun c => c.ipaddress = some p.device_info.device_ip) = [cam2] →
      resolveCameraId db.cameras p = .ok (some cam2.id)) ∧
    (∀ cam3, resolveByExplicitId db.cameras p = none →
      (p.device_info.device_ip = "" ∨
        db.cameras.filter
          (fun c => c.ipaddress = some p.device_info.device_ip) = []) →
      p.device_info.device_name ≠ "" →
      db.cameras.filter
        (fun c => c.device_name = some p.device_info.device_name) = [cam3] →
      resolveCameraId db.cameras p = .ok (some cam3.id)) ∧
    (resolveByExplicitId db.cameras p = none →
      (p.device_info.device_ip = "" ∨
        db.cameras.filter
          (fun c => c.ipaddress = some p.device_info.device_ip) = []) →
      (p.device_info.device_name = "" ∨
        db.cameras.filter
          (fun c => c.device_name = some p.device_info.device_name) = []) →
      resolveCameraId db.cameras p = .ok none ∧
      createEvent db p nextId = (db, .error "CameraNotFound")) := by
  refine ⟨?_, ?_, ?_, ?_⟩
  · intro cid cam hcid hpos hfind
    have hne : cid ≠ 0 := by omega
    have hby : resolveByExplicitId db.cameras p = some cam.id := by
      simp [resolveByExplicitId, hcid, hne, hpos, hfind]
    have hres : resolveCameraId db.cameras p = .ok (some cam.id) := by
      simp [resolveCameraId, hby]
    exact ⟨hres, by simp [createEvent, hres], rfl⟩
  · intro cam2 hby hip hfilter
    simp [resolveCameraId, hby, hip, scalarOneOrNone, hfilter]
  · intro cam3 hby hip hname hfilter
    have hbn : resolveByDeviceName db.cameras p = .ok (some cam3.id) := by
      simp [resolveByDeviceName, hname, scalarOneOrNone, hfilter]
    rcases hip with hip | hip
    · simp [resolveCameraId, hby, hip, hbn]
    · simp [resolveCameraId, hby, scalarOneOrNone, hip, hbn]
  · intro hby hip hname
    have hbn : resolveByDeviceName db.cameras p = .ok none := by
      rcases hname with hname | hname
      · simp [resolveByDeviceName, hname]
      · by_cases hn : p.device_info.device_name = ""
        · simp [resolveByDeviceName, hn]
        · simp [resolveByDeviceName, hn, scalarOneOrNone, hname]
    have hres : resolveCameraId db.cameras p = .ok none := by
      rcases hip with hip | hip
      · simp [resolveCameraId, hby, hip, hbn]
      · simp [resolveCameraId, hby, scalarOneOrNone, hip, hbn]
    exact ⟨hres, by simp [createEvent, hres]⟩

/-- C4 witness: a payload carrying explicit `camera_id = 1` together with
the device IP of a different camera (id 2) resolves to camera 1 and the
created event row is attributed to camera 1; the same database with an
unresolvable payload rejects creation leaving the database unchanged. -/
theorem C4_camera_resolution_priority_witness :
    (resolveCameraId
        [{ id := 1, model := "m1", mac := "aa", ipaddress := some "10.0.0.1",
           device_name := some "cam-one", system_boot_time := none },
         { id := 2, model := "m2", mac := "bb", ipaddress := some "10.0.0.2",
           device_name := some "cam-two", system_boot_time := none }]
        { camera_id := some 1,
          device_info := { device_name := "cam-two",
                           device_ip := "10.0.0.2", device_model := none,
                           firmware_version := none },
          event_info := { event_type := "lpr", event_id := "E1",
                          event_time := 50, event_description := none },
          plate_info := { plate_number := "ABC123", plate_roi := none } } =
      .ok (some 1)) ∧
    ((createEvent
        { cameras :=
            [{ id := 1, model := "m1", mac := "aa",
               ipaddress := some "10.0.0.1", device_name := some "cam-one",
               system_boot_time := none },
             { id := 2, model := "m2", mac := "bb",
               ipaddress := some "10.0.0.2", device_name := some "cam-two",
               system_boot_time := none }],
          events := [] }
        { camera_id := some 1,
          device_info := { device_name := "cam-two",
                           device_ip := "10.0.0.2", device_model := none,
                           firmware_version := none },
          event_info := { event_type := "lpr", event_id := "E1",
                          event_time := 50, event_description := none },
          plate_info := { plate_number := "ABC123", plate_roi := none } }
        5).2.map (fun r => r.camera_id) = .ok (some 1)) ∧
    (createEvent
        { cameras :=
            [{ id := 1, model := "m1", mac := "aa",
               ipaddress := some "10.0.0.1", device_name := some "cam-one",
               system_boot_time := none }],
          events := [] }
        { camera_id := none,
          device_info := { device_name := "other",
                           device_ip := "10.9.9.9", device_model := none,
                           firmware_version := none },
          event_info := { event_type := "lpr", event_id := "E2",
                          event_time := 51, event_description := none },
          plate_info := { plate_number := "XYZ999", plate_roi := none } }
        6 =
      ({ cameras :=
           [{ id := 1, model := "m1", mac := "aa",
              ipaddress := some "10.0.0.1", device_name := some "cam-one",
              system_boot_time := none }],
         events := [] }, .error "CameraNotFound")) := by
  refine ⟨?_, ?_, ?_⟩
  · exact ((C4_camera_resolution_priority
      { cameras :=
          [{ id := 1, model := "m1", mac := "aa",
             ipaddress := some "10.0.0.1", device_name := some "cam-one",
             system_boot_time := none },
           { id := 2, model := "m2", mac := "bb",
             ipaddress := some "10.0.0.2", device_name := some "cam-two",
             system_boot_time := none }],
        events := [] }
      { camera_id := some 1,
        device_info := { device_name := "cam-two", device_ip := "10.0.0.2",
                         device_model := none, firmware_version := none },
        event_info := { event_type := "lpr", event_id := "E1",
                        event_time := 50, event_description := none },
        plate_info := { plate_number := "ABC123", plate_roi := none } }
      5).1 1
      { id := 1, model := "m1", mac := "aa", ipaddress := some "10.0.0.1",
        device_name := some "cam-one", system_boot_time := none }
      rfl (by decide) (by decide)).1
  · have h := ((C4_camera_resolution_priority
      { cameras :=
          [{ id := 1, model := "m1", mac := "aa",
             ipaddress := some "10.0.0.1", device_name := some "cam-one",
             system_boot_time := none },
           { id := 2, model := "m2", mac := "bb",
             ipaddress := some "10.0.0.2", device_name := some "cam-two",
             system_boot_time := none }],
        events := [] }
      { camera_id := some 1,
        device_info := { device_name := "cam-two", device_ip := "10.0.0.2",
                         device_model := none, firmware_version := none },
        event_info := { event_type := "lpr", event_id := "E1",
                        event_time := 50, event_description := none },
        plate_info := { plate_number := "ABC123", plate_roi := none } }
      5).1 1
      { id := 1, model := "m1", mac := "aa", ipaddress := some "10.0.0.1",
        device_name := some "cam-one", system_boot_time := none }
      rfl (by decide) (by decide)).2.1
    rw [h]
    rfl
  · exact ((C4_camera_resolution_priority
      { cameras :=
          [{ id := 1, model := "m1", mac := "aa",
             ipaddress := some "10.0.0.1", device_name := some "cam-one",
             system_boot_time := none }],
        events := [] }
      { camera_id := none,
        device_info := { device_name := "other", device_ip := "10.9.9.9",
                         device_model := none, firmware_version := none },
        event_info := { event_type := "lpr", event_id := "E2",
                        event_time := 51, event_description := none },
        plate_info := { plate_number := "XYZ999", plate_roi := none } }
      6).2.2.2 rfl (Or.inr (by decide)) (Or.inr (by decide))).2

/-- C6 counterexample: a payload whose `PlateROI` object supplies only `X`
and `Y` is rejected by schema validation (`Width` and `Height` are
required fields), so no event row is persisted at all — the claim instead
asserts the event is persisted with no bounding box. -/
theorem C6_plate_roi_counterexample :
    ingestEvent
        { cameras := [{ id := 1, model := "m1", mac := "aa",
                        ipaddress := some "10.0.0.1",
                        device_name := some "cam-one",
                        system_boot_time := none }],
          events := [] }
        { camera_id := some 1,
          device_info := { device_name := "cam-one",
                           device_ip := "10.0.0.1", device_model := none,
                           firmware_version := none },
          event_info := { event_type := "lpr", event_id := "E1",
                          event_time := 50, event_description := none },
          plate_number := "ABC123",
          plate_roi := some { x := some 1, y := some 2, width := none,
                              height := none } } 1 =
      ({ cameras := [{ id := 1, model := "m1", mac := "aa",
                       ipaddress := some "10.0.0.1",
                       device_name := some "cam-one",
                       system_boot_time := none }],
         events := [] }, .error "ValidationError") := by
  rfl

/-- C6 (amended): a payload supplying a partial `PlateROI` (any of the
four coordinates missing) is rejected by schema validation and no event is
persisted; and the read projection reports a `plate_roi` object exactly
when all four stored coordinates are present, otherwise null. -/
theorem C6_plate_roi_all_or_nothing (db : EventDB) (raw : RawLprEventCreate)
    (nextId : Nat) (r : RawPlateROI) (e : LprEventRow) :
    (raw.plate_roi = some r →
      (r.x = none ∨ r.y = none ∨ r.width = none ∨ r.height = none) →
      ingestEvent db raw nextId = (db, .error "ValidationError")) ∧
    (∀ a b c d, e.plate_roi_x = some a → e.plate_roi_y = some b →
      e.plate_roi_width = some c → e.plate_roi_height = some d →
      readPlateROI e = some { x := a, y := b, width := c, height := d }) ∧
    ((e.plate_roi_x = none ∨ e.plate_roi_y = none ∨
      e.plate_roi_width = none ∨ e.plate_roi_height = none) →
      readPlateROI e = none) := by
  refine ⟨?_, ?_, ?_⟩
  · intro hroi h
    have hv : validatePlateROI r = none := by
      obtain ⟨x, y, w, ht⟩ := r
      cases x <;> cases y <;> cases w <;> cases ht <;>
        simp_all [validatePlateROI]
    simp [ingestEvent, parseLprEventCreate, hroi, hv]
  · intro a b c d hx hy hw hh
    simp [readPlateROI, hx, hy, hw, hh]
  · intro h
    cases hx : e.plate_roi_x <;> cases hy : e.plate_roi_y <;>
      cases hw : e.plate_roi_width <;> cases hh : e.plate_roi_height <;>
        simp_all [readPlateROI]

/-- C6 witness: the amended theorem applied to the concrete partial-ROI
payload and to concrete stored rows with and without a full box. -/
theorem C6_plate_roi_all_or_nothing_witness :
    (ingestEvent
        { cameras := [{ id := 1, model := "m1", mac := "aa",
                        ipaddress := some "10.0.0.1",
                        device_name := some "cam-one",
                        system_boot_time := none }],
          events := [] }
        { camera_id := some 1,
          device_info := { device_name := "cam-one",
                           device_ip := "10.0.0.1", device_model := none,
                           firmware_version := none },
          event_info := { event_type := "lpr", event_id := "E1",
                          event_time := 50, event_description := none },
          plate_number := "ABC123",
          plate_roi := some { x := some 1, y := some 2, width := none,
                              height := none } } 1 =
      ({ cameras := [{ id := 1, model := "m1", mac := "aa",
                       ipaddress := some "10.0.0.1",
                       device_name := some "cam-one",
                       system_boot_time := none }],
         events := [] }, .error "ValidationError")) ∧
    (readPlateROI
        { id := 1, camera_id := some 1, device_name := "cam-one",
          device_ip := "10.0.0.1", event_type := "lpr", event_uid := "E1",
          event_time := 50, plate_number := "ABC123",
          plate_roi_x := some 10, plate_roi_y := some 20,
          plate_roi_width := some 30, plate_roi_height := some 40 } =
      some { x := 10, y := 20, width := 30, height := 40 }) ∧
    (readPlateROI
        { id := 2, camera_id := some 1, device_name := "cam-one",
          device_ip := "10.0.0.1", event_type := "lpr", event_uid := "E2",
          event_time := 51, plate_number := "ABC124",
          plate_roi_x := some 10, plate_roi_y := some 20,
          plate_roi_width := none, plate_roi_height := none } = none) :=
  ⟨(C6_plate_roi_all_or_nothing
      { cameras := [{ id := 1, model := "m1", mac := "aa",
                      ipaddress := some "10.0.0.1",
                      device_name := some "cam-one",
                      system_boot_time := none }],
        events := [] }
      { camera_id := some 1,
        device_info := { device_name := "cam-one", device_ip := "10.0.0.1",
                         device_model := none, firmware_version := none },
        event_info := { event_type := "lpr", event_id := "E1",
                        event_time := 50, event_description := none },
        plate_number := "ABC123",
        plate_roi := some { x := some 1, y := some 2, width := none,
                            height := none } } 1
      { x := some 1, y := some 2, width := none, height := none }
      { id := 1, camera_id := some 1, device_name := "cam-one",
        device_ip := "10.0.0.1", event_type := "lpr", event_uid := "E1",
        event_time := 50, plate_number := "ABC123",
        plate_roi_x := some 10, plate_roi_y := some 20,
        plate_roi_width := some 30, plate_roi_height := some 40 }).1
      rfl (Or.inr (Or.inr (Or.inl rfl))),
   (C6_plate_roi_all_or_nothing
      { cameras := [], events := [] }
      { camera_id := none,
        device_info := { device_name := "x", device_ip := "y",
                         device_model := none, firmware_version := none },
        event_info := { event_type := "t", event_id := "i",
                        event_time := 0, event_description := none },
        plate_number := "p", plate_roi := none } 0
      { x := none, y := none, width := none, height := none }
      { id := 1, camera_id := some 1, device_name := "cam-one",
        device_ip := "10.0.0.1", event_type := "lpr", event_uid := "E1",
        event_time := 50, plate_number := "ABC123",
        plate_roi_x := some 10, plate_roi_y := some 20,
        plate_roi_width := some 30, plate_roi_height := some 40 }).2.1
      10 20 30 40 rfl rfl rfl rfl,
   (C6_plate_roi_all_or_nothing
      { cameras := [], events := [] }
      { camera_id := none,
        device_info := { device_name := "x", device_ip := "y",
                         device_model := none, firmware_version := none },
        event_info := { event_type := "t", event_id := "i",
                        event_time := 0, event_description := none },
        plate_number := "p", plate_roi := none } 0
      { x := none, y := none, width := none, height := none }
      { id := 2, camera_id := some 1, device_name := "cam-one",
        device_ip := "10.0.0.1", event_type := "lpr", event_uid := "E2",
        event_time := 51, plate_number := "ABC124",
        plate_roi_x := some 10, plate_roi_y := some 20,
        plate_roi_width := none, plate_roi_height := none }).2.2
      (Or.inr (Or.inr (Or.inl rfl)))⟩

/-- C9: correlation-id resolution checks the configured header first, then
`x-correlation-id`, `x-request-id`, `traceparent`, else falls back to the
freshly generated service-prefixed id; concretely, a request carrying only
`x-request-id: req-42` resolves to `req-42`, the response's
`X-Correlation-ID` header (absent before the finally block) becomes
`req-42`, and an audit event recorded during the request with no explicit
correlation id picks up `req-42` from the ambient context. -/
theorem C9_correlation_id_propagation (ch fresh : String)
    (hs : List (String × String)) :
    (∀ v, hgetTruthy hs (lcString ch) = some v →
      resolveCorrelationId ch hs fresh = v) ∧
    (∀ v, hgetTruthy hs (lcString ch) = none →
      hgetTruthy hs "x-correlation-id" = some v →
      resolveCorrelationId ch hs fresh = v) ∧
    (∀ v, hgetTruthy hs (lcString ch) = none →
      hgetTruthy hs "x-correlation-id" = none →
      hgetTruthy hs "x-request-id" = some v →
      resolveCorrelationId ch hs fresh = v) ∧
    (∀ v, hgetTruthy hs (lcString ch) = none →
      hgetTruthy hs "x-correlation-id" = none →
      hgetTruthy hs "x-request-id" = none →
      hgetTruthy hs "traceparent" = some v →
      resolveCorrelationId ch hs fresh = v) ∧
    (hgetTruthy hs (lcString ch) = none →
      hgetTruthy hs "x-correlation-id" = none →
      hgetTruthy hs "x-request-id" = none →
      hgetTruthy hs "traceparent" = none →
      resolveCorrelationId ch hs fresh = fresh) ∧
    (resolveCorrelationId "X-Correlation-ID" [("x-request-id", "req-42")]
      fresh = "req-42") ∧
    (responseCorrelationHeader none
      (resolveCorrelationId "X-Correlation-ID" [("x-request-id", "req-42")]
        fresh) = "req-42") ∧
    ((mkAuditEvent
        (dispatchContext "X-Correlation-ID" [("x-request-id", "req-42")]
          fresh (some "1.2.3.4"))
        "auth.login" none none none none none).correlation_id =
      some "req-42") := by
  refine ⟨?_, ?_, ?_, ?_, ?_, ?_, ?_, ?_⟩
  · intro v h1
    simp [resolveCorrelationId, h1]
  · intro v h1 h2
    simp [resolveCorrelationId, h1, h2]
  · intro v h1 h2 h3
    simp [resolveCorrelationId, h1, h2, h3]
  · intro v h1 h2 h3 h4
    simp [resolveCorrelationId, h1, h2, h3, h4]
  · intro h1 h2 h3 h4
    simp [resolveCorrelationId, h1, h2, h3, h4]
  · rfl
  · rfl
  · rfl

/-- C9 witness: the propagation theorem applied with the default
correlation header and a concrete fresh id, including the ordering clause
instantiated on the concrete header set. -/
theorem C9_correlation_id_propagation_witness :
    resolveCorrelationId "X-Correlation-ID" [("x-request-id", "req-42")]
      "auth-service-0abc" = "req-42" ∧
    ((mkAuditEvent
        (dispatchContext "X-Correlation-ID" [("x-request-id", "req-42")]
          "auth-service-0abc" (some "1.2.3.4"))
        "auth.login" none none none none none).correlation_id =
      some "req-42") :=
  ⟨(C9_correlation_id_propagation "X-Correlation-ID" "auth-service-0abc"
      [("x-request-id", "req-42")]).2.2.1 "req-42" (by decide) (by decide)
      (by decide),
   (C9_correlation_id_propagation "X-Correlation-ID" "auth-service-0abc"
      [("x-request-id", "req-42")]).2.2.2.2.2.2.2⟩

/-- C8: boot-time parsing tries the four fixed patterns in order with the
first success winning and the general ISO parse as final fallback;
concretely, `"16/11/2025 08:00:00"` fails the first two patterns and
parses via the third (`%d/%m/%Y %H:%M:%S`) to 16 November 2025 08:00:00,
and `"not-a-date"` fails everything, making camera creation fail with the
invalid-format error and persist nothing. -/
theorem C8_boot_time_parsing (v : String) (d : PDateTime) :
    (v ≠ "" → strptimeIsoTz v = some d →
      parseSystemBootTime (some v) = .ok (some d)) ∧
    (v ≠ "" → strptimeIsoTz v = none → strptimeIsoNoTz v = some d →
      parseSystemBootTime (some v) = .ok (some d)) ∧
    (v ≠ "" → strptimeIsoTz v = none → strptimeIsoNoTz v = none →
      strptimeDMY v = some d →
      parseSystemBootTime (some v) = .ok (some d)) ∧
    (v ≠ "" → strptimeIsoTz v = none → strptimeIsoNoTz v = none →
      strptimeDMY v = none → strptimeMDY v = some d →
      parseSystemBootTime (some v) = .ok (some d)) ∧
    (v ≠ "" → strptimeIsoTz v = none → strptimeIsoNoTz v = none →
      strptimeDMY v = none → strptimeMDY v = none →
      fromisoformat v = some d →
      parseSystemBootTime (some v) = .ok (some d)) ∧
    (v ≠ "" → strptimeIsoTz v = none → strptimeIsoNoTz v = none →
      strptimeDMY v = none → strptimeMDY v = none →
      fromisoformat v = none →
      parseSystemBootTime (some v) =
        .error ("Invalid systemBootTime format: " ++ v)) ∧
    (strptimeIsoTz "16/11/2025 08:00:00" = none) ∧
    (strptimeIsoNoTz "16/11/2025 08:00:00" = none) ∧
    (strptimeDMY "16/11/2025 08:00:00" =
      some { year := 2025, month := 11, day := 16, hour := 8, minute := 0,
             second := 0, tz := none }) ∧
    (parseSystemBootTime (some "16/11/2025 08:00:00") =
      .ok (some { year := 2025, month := 11, day := 16, hour := 8,
                  minute := 0, second := 0, tz := none })) ∧
    (parseSystemBootTime (some "not-a-date") =
      .error "Invalid systemBootTime format: not-a-date") ∧
    (createCamera []
        { model := "m", mac := "aa", ipaddress := none, device_name := none,
          system_boot_time := some "not-a-date" } 1 =
      ([], .error "Invalid systemBootTime format: not-a-date")) := by
  refine ⟨?_, ?_, ?_, ?_, ?_, ?_, ?_, ?_, ?_, ?_, ?_, ?_⟩
  · intro hv h1
    simp [parseSystemBootTime, hv, bootTimeParsers, firstSome, h1]
  · intro hv h1 h2
    simp [parseSystemBootTime, hv, bootTimeParsers, firstSome, h1, h2]
  · intro hv h1 h2 h3
    simp [parseSystemBootTime, hv, bootTimeParsers, firstSome, h1, h2, h3]
  · intro hv h1 h2 h3 h4
    simp [parseSystemBootTime, hv, bootTimeParsers, firstSome, h1, h2, h3, h4]
  · intro hv h1 h2 h3 h4 h5
    simp [parseSystemBootTime, hv, bootTimeParsers, firstSome,
      h1, h2, h3, h4, h5]
  · intro hv h1 h2 h3 h4 h5
    simp [parseSystemBootTime, hv, bootTimeParsers, firstSome,
      h1, h2, h3, h4, h5]
  · decide
  · decide
  · decide
  · rfl
  · rfl
  · rfl

/-- C8 witness: the parsing theorem applied to the two concrete inputs of
the claim, with the first-success clause instantiated at the third
pattern. -/
theorem C8_boot_time_parsing_witness :
    parseSystemBootTime (some "16/11/2025 08:00:00") =
      .ok (some { year := 2025, month := 11, day := 16, hour := 8,
                  minute := 0, second := 0, tz := none }) ∧
    parseSystemBootTime (some "not-a-date") =
      .error "Invalid systemBootTime format: not-a-date" :=
  ⟨(C8_boot_time_parsing "16/11/2025 08:00:00"
      { year := 2025, month := 11, day := 16, hour := 8, minute := 0,
        second := 0, tz := none }).2.2.1 (by decide)
      (C8_boot_time_parsing "16/11/2025 08:00:00"
        { year := 2025, month := 11, day := 16, hour := 8, minute := 0,
          second := 0, tz := none }).2.2.2.2.2.2.1
      (C8_boot_time_parsing "16/11/2025 08:00:00"
        { year := 2025, month := 11, day := 16, hour := 8, minute := 0,
          second := 0, tz := none }).2.2.2.2.2.2.2.1
      (C8_boot_time_parsing "16/11/2025 08:00:00"
        { year := 2025, month := 11, day := 16, hour := 8, minute := 0,
          second := 0, tz := none }).2.2.2.2.2.2.2.2.1,
   (C8_boot_time_parsing "not-a-date"
      { year := 2025, month := 11, day := 16, hour := 8, minute := 0,
        second := 0, tz := none }).2.2.2.2.2.2.2.2.2.2.1⟩

end Its
